import Mathlib

/-!
Verification of the typed, obfuscated key-value storage layer in
src/src/storage/leveldbwrapper.h (classes CLevelDBBatch and CLevelDBWrapper).

Shallow embedding conventions:
  - Byte sequences are modelled as List Nat.
  - The generic serialization codec (CDataStream with operators << and >>,
    from utils/serialize.h, which is outside this repository snapshot and out
    of scope per the spec) is modelled by explicit function parameters
    serK : K -> Bytes, serV : V -> Bytes and deserV : Bytes -> Option V.
  - The leveldb engine (external per the spec) is modelled as an association
    list from key bytes to value bytes plus an optional injected fault; the
    leveldb Status triple ok / IsNotFound / other-error is the inductive
    GetResult.
  - Exceptions (leveldb_error thrown by HandleError) are modelled with Except.
  - Each wrapper operation also returns the list of engine calls it issues
    and the list of log lines it emits, so that statements about which bytes
    reach the engine and about logging are expressible.
-/

/-- A byte sequence (std::vector of unsigned char, leveldb::Slice contents). -/
abbrev Bytes := List Nat

/-- The exception class leveldb_error from leveldbwrapper.h line 21: a
runtime_error carrying a message. -/
structure leveldb_error where
  msg : String
deriving DecidableEq, Repr

/-- Result of an engine point lookup, mirroring the leveldb::Status returned
by pdb->Get together with the fetched string: status ok with the value bytes,
status IsNotFound, or any other non-ok status carrying its message. -/
inductive GetResult where
  | found (value : Bytes)
  | notFound
  | failure (msg : String)
deriving DecidableEq, Repr

/-- One byte-level operation recorded in a leveldb::WriteBatch: Put or
Delete. -/
inductive BatchOp where
  | put (key : Bytes) (value : Bytes)
  | del (key : Bytes)
deriving DecidableEq, Repr

/-- One call issued to the underlying engine: a point lookup (pdb->Get) or an
atomic batch submission (pdb->Write). -/
inductive EngineCall where
  | get (key : Bytes)
  | atomicWrite (ops : List BatchOp) (sync : Bool)
deriving DecidableEq, Repr

/-- The underlying ordered byte-store engine: its stored contents as an
association list from key bytes to value bytes, plus an optional injected
fault message (none = healthy engine; some msg = every operation reports a
non-ok, non-NotFound status with that message, modelling a simulated I/O
failure). -/
structure Engine where
  data : List (Bytes × Bytes)
  failMsg : Option String
deriving DecidableEq, Repr

/-- Insert or overwrite a key in the engine contents (engine Put
semantics). -/
def storePut (data : List (Bytes × Bytes)) (k v : Bytes) : List (Bytes × Bytes) :=
  match data with
  | [] => [(k, v)]
  | (k', v') :: rest => if k' = k then (k, v) :: rest else (k', v') :: storePut rest k v

/-- Remove a key from the engine contents (engine Delete semantics). -/
def storeDel (data : List (Bytes × Bytes)) (k : Bytes) : List (Bytes × Bytes) :=
  data.filter (fun p => !(p.1 == k))

/-- Engine point lookup: the injected fault, if any, else found / notFound
from the contents. -/
def Engine.get (e : Engine) (k : Bytes) : GetResult :=
  match e.failMsg with
  | some m => GetResult.failure m
  | none =>
    match e.data.find? (fun p => p.1 == k) with
    | some p => GetResult.found p.2
    | none => GetResult.notFound

/-- Apply one batch operation to the engine contents. -/
def applyOp (data : List (Bytes × Bytes)) : BatchOp → List (Bytes × Bytes)
  | BatchOp.put k v => storePut data k v
  | BatchOp.del k => storeDel data k

/-- Apply the operations of a batch, in recorded order, to the engine
contents (the atomic commit of leveldb WriteBatch). -/
def Engine.applyBatch (e : Engine) (ops : List BatchOp) : Engine :=
  { e with data := ops.foldl applyOp e.data }

/-- The cyclic XOR obfuscation described by the spec (section 4.2 apply):
XOR the payload byte-for-byte with the obfuscation key, repeating the key
cyclically over the payload length. An empty obfuscation key leaves the
payload unchanged. -/
def xorWithKey (okey : Bytes) (payload : Bytes) : Bytes :=
  if okey.length = 0 then payload
  else payload.enum.map (fun p => Nat.xor p.2 (okey.getD (p.1 % okey.length) 0))

/-- Batch of changes queued to be written to a CLevelDBWrapper
(class CLevelDBBatch, leveldbwrapper.h lines 29-70): the accumulated
leveldb::WriteBatch operations and the obfuscate_key pointer received at
construction. -/
structure CLevelDBBatch where
  batch : List BatchOp
  obfuscate_key : Bytes
deriving DecidableEq, Repr

/-- CLevelDBBatch::Write (leveldbwrapper.h lines 44-58): serialize the key
into ssKey, serialize the value into ssValue, and record Put(slKey, slValue)
in the batch. The source records the plain serialized value bytes: no XOR
with obfuscate_key occurs anywhere in the function body, although the member
is held. -/
def CLevelDBBatch.Write {K V : Type} (b : CLevelDBBatch) (serK : K → Bytes)
    (serV : V → Bytes) (key : K) (value : V) : CLevelDBBatch :=
  let slKey := serK key
  let slValue := serV value
  { b with batch := b.batch ++ [BatchOp.put slKey slValue] }

/-- CLevelDBBatch::Erase (leveldbwrapper.h lines 60-69): serialize the key
and record Delete(slKey). -/
def CLevelDBBatch.Erase {K : Type} (b : CLevelDBBatch) (serK : K → Bytes)
    (key : K) : CLevelDBBatch :=
  let slKey := serK key
  { b with batch := b.batch ++ [BatchOp.del slKey] }

/-- Output of a wrapper operation: the engine calls it issued, the log lines
it emitted via LogPrintf, and its result (a thrown leveldb_error or a normal
return). -/
structure OpOut (α : Type) where
  calls : List EngineCall
  log : List String
  result : Except leveldb_error α

/-- The LogPrintf line emitted by Read and Exists on a non-ok, non-NotFound
engine status (leveldbwrapper.h lines 124 and 157). -/
def logReadFailure (msg : String) : String :=
  "LevelDB read failure: " ++ msg ++ "\n"

/-- CLevelDBWrapper::Read (leveldbwrapper.h lines 111-134): serialize the
key, call pdb->Get; on NotFound return false (the out-parameter value is not
touched); on any other non-ok status log the failure and let HandleError
throw leveldb_error (modelled from the spec: the body of HandleError is not
under src/, only declared; per the spec every non-ok, non-NotFound status
becomes a StorageError carrying the engine message); on ok, deserialize the
fetched bytes into the out-parameter, returning false if deserialization
throws, true otherwise. The value argument is the caller out-parameter as it
stood before the call; the returned pair is (return value, out-parameter
after the call). -/
def CLevelDBWrapper.Read {K V : Type} (e : Engine) (serK : K → Bytes)
    (key : K) (deserV : Bytes → Option V) (value : V) : OpOut (Bool × V) :=
  let slKey := serK key
  match e.get slKey with
  | GetResult.notFound =>
    { calls := [EngineCall.get slKey], log := [], result := Except.ok (false, value) }
  | GetResult.failure m =>
    { calls := [EngineCall.get slKey], log := [logReadFailure m],
      result := Except.error { msg := m } }
  | GetResult.found bs =>
    match deserV bs with
    | some v =>
      { calls := [EngineCall.get slKey], log := [], result := Except.ok (true, v) }
    | none =>
      { calls := [EngineCall.get slKey], log := [], result := Except.ok (false, value) }

/-- CLevelDBWrapper::Exists (leveldbwrapper.h lines 144-161): identical
lookup path to Read, without deserialization; returns true whenever the
engine status is ok. -/
def CLevelDBWrapper.Exists {K : Type} (e : Engine) (serK : K → Bytes)
    (key : K) : OpOut Bool :=
  let slKey := serK key
  match e.get slKey with
  | GetResult.notFound =>
    { calls := [EngineCall.get slKey], log := [], result := Except.ok false }
  | GetResult.failure m =>
    { calls := [EngineCall.get slKey], log := [logReadFailure m],
      result := Except.error { msg := m } }
  | GetResult.found _ =>
    { calls := [EngineCall.get slKey], log := [], result := Except.ok true }

/-- Modelled from the spec: the body of CLevelDBWrapper::WriteBatch is not
under src/ (the header only declares it, line 171). Per the spec (sections
4.4 and 7) it submits all the batch operations to the engine as a single
atomic unit with the given sync flag, returns true on success, and on any
non-ok engine status raises a StorageError carrying the engine message,
leaving the database state exactly as it was. -/
def CLevelDBWrapper.WriteBatch (e : Engine) (b : CLevelDBBatch)
    (fSync : Bool) : OpOut (Bool × Engine) :=
  match e.failMsg with
  | some m =>
    { calls := [EngineCall.atomicWrite b.batch fSync], log := [],
      result := Except.error { msg := m } }
  | none =>
    { calls := [EngineCall.atomicWrite b.batch fSync], log := [],
      result := Except.ok (true, e.applyBatch b.batch) }

/-- CLevelDBWrapper::Write (leveldbwrapper.h lines 136-142): build a fresh
batch holding the obfuscate_key member, record the single put, submit it via
WriteBatch with the given sync flag. The ob argument is the wrapper member
obfuscate_key. -/
def CLevelDBWrapper.Write {K V : Type} (e : Engine) (ob : Bytes)
    (serK : K → Bytes) (serV : V → Bytes) (key : K) (value : V)
    (fSync : Bool) : OpOut (Bool × Engine) :=
  let batch := CLevelDBBatch.Write { batch := [], obfuscate_key := ob } serK serV key value
  CLevelDBWrapper.WriteBatch e batch fSync

/-- CLevelDBWrapper::Erase (leveldbwrapper.h lines 163-169): build a fresh
batch, record the single delete, submit it via WriteBatch. -/
def CLevelDBWrapper.Erase {K : Type} (e : Engine) (ob : Bytes)
    (serK : K → Bytes) (key : K) (fSync : Bool) : OpOut (Bool × Engine) :=
  let batch := CLevelDBBatch.Erase { batch := [], obfuscate_key := ob } serK key
  CLevelDBWrapper.WriteBatch e batch fSync

/-- CLevelDBWrapper::Flush (leveldbwrapper.h lines 173-177): the body is
exactly return true; it touches neither the engine nor any member, so it
issues no engine call, logs nothing and leaves the engine unchanged. -/
def CLevelDBWrapper.Flush (e : Engine) : OpOut (Bool × Engine) :=
  { calls := [], log := [], result := Except.ok (true, e) }

/-- CLevelDBWrapper::Sync (leveldbwrapper.h lines 179-183): build a fresh
empty batch holding the obfuscate_key member and submit it via WriteBatch
with fSync = true. -/
def CLevelDBWrapper.Sync (e : Engine) (ob : Bytes) : OpOut (Bool × Engine) :=
  let batch : CLevelDBBatch := { batch := [], obfuscate_key := ob }
  CLevelDBWrapper.WriteBatch e batch true

/-- A concrete single-byte codec for Nat, used in witnesses: a number below
256 serializes to the one-byte sequence holding it. -/
def serNat (n : Nat) : Bytes := [n % 256]

/-- Deserializer matching serNat: exactly one byte, returned as the number;
anything else fails to deserialize. -/
def deserNat (bs : Bytes) : Option Nat :=
  match bs with
  | [b] => if b < 256 then some b else none
  | _ => none

/-- After storePut, a lookup for the written key finds exactly the written
pair. -/
theorem find_storePut (data : List (Bytes × Bytes)) (k v : Bytes) :
    (storePut data k v).find? (fun p => p.1 == k) = some (k, v) := by
  induction data with
  | nil => simp [storePut]
  | cons hd tl ih =>
    obtain ⟨k', v'⟩ := hd
    by_cases h : k' = k
    · subst h
      simp [storePut]
    · simp [storePut, h, ih]

/-- C1: on a healthy engine, for every key and value whose codec round-trips,
Write(k, v) succeeds and a subsequent Read(k) on the resulting engine state
succeeds and yields a value equal to v. -/
theorem claim_C1_write_then_read_roundtrip {K V : Type} (e : Engine) (ob : Bytes)
    (serK : K → Bytes) (serV : V → Bytes) (deserV : Bytes → Option V)
    (key : K) (value : V) (v0 : V) (fSync : Bool)
    (hok : e.failMsg = none)
    (hcodec : deserV (serV value) = some value) :
    ∃ e' : Engine,
      (CLevelDBWrapper.Write e ob serK serV key value fSync).result
        = Except.ok (true, e') ∧
      (CLevelDBWrapper.Read e' serK key deserV v0).result
        = Except.ok (true, value) := by
  refine ⟨e.applyBatch [BatchOp.put (serK key) (serV value)], ?_, ?_⟩
  · simp [CLevelDBWrapper.Write, CLevelDBWrapper.WriteBatch, CLevelDBBatch.Write, hok]
  · simp [CLevelDBWrapper.Read, Engine.get, Engine.applyBatch, hok, applyOp,
      find_storePut, hcodec]

/-- Witness for C1 at a concrete input: key 7, value 42, empty healthy
engine, single-byte Nat codec. -/
theorem claim_C1_witness :
    ({ data := [], failMsg := none } : Engine).failMsg = none ∧
    deserNat (serNat 42) = some 42 ∧
    ∃ e' : Engine,
      (CLevelDBWrapper.Write { data := [], failMsg := none } []
          serNat serNat 7 42 false).result = Except.ok (true, e') ∧
      (CLevelDBWrapper.Read e' serNat 7 deserNat 0).result
        = Except.ok (true, 42) :=
  ⟨rfl, rfl,
    claim_C1_write_then_read_roundtrip { data := [], failMsg := none } []
      serNat serNat deserNat 7 42 0 false rfl rfl⟩

/-- C4: for every operation, the key bytes handed to the engine are exactly
the codec-serialized caller key with no mask applied: a batch put records
Put(serK key, serV value), a batch delete records Delete(serK key), and Read
and Exists issue a point lookup at serK key. -/
theorem claim_C4_keys_never_obfuscated {K V : Type} (b : CLevelDBBatch)
    (e : Engine) (serK : K → Bytes) (serV : V → Bytes)
    (deserV : Bytes → Option V) (key : K) (value : V) (v0 : V) :
    (CLevelDBBatch.Write b serK serV key value).batch
        = b.batch ++ [BatchOp.put (serK key) (serV value)] ∧
    (CLevelDBBatch.Erase b serK key).batch
        = b.batch ++ [BatchOp.del (serK key)] ∧
    (CLevelDBWrapper.Read e serK key deserV v0).calls
        = [EngineCall.get (serK key)] ∧
    (CLevelDBWrapper.Exists e serK key).calls
        = [EngineCall.get (serK key)] := by
  refine ⟨rfl, rfl, ?_, ?_⟩
  · cases hg : e.get (serK key) with
    | found bs => cases hd : deserV bs <;> simp [CLevelDBWrapper.Read, hg, hd]
    | notFound => simp [CLevelDBWrapper.Read, hg]
    | failure m => simp [CLevelDBWrapper.Read, hg]
  · cases hg : e.get (serK key) <;> simp [CLevelDBWrapper.Exists, hg]

/-- C5: Read and Exists on a key the engine reports absent return the
not-found signal with no error and no log line; on any other non-ok engine
status both log the engine message and raise leveldb_error carrying that
message, never returning a silent empty or false result. -/
theorem claim_C5_notfound_vs_error {K V : Type} (e1 e2 : Engine)
    (serK : K → Bytes) (deserV : Bytes → Option V) (key : K) (v0 : V)
    (msg : String)
    (h1 : e1.get (serK key) = GetResult.notFound)
    (h2 : e2.get (serK key) = GetResult.failure msg) :
    CLevelDBWrapper.Read e1 serK key deserV v0
      = { calls := [EngineCall.get (serK key)], log := [],
          result := Except.ok (false, v0) } ∧
    CLevelDBWrapper.Exists e1 serK key
      = { calls := [EngineCall.get (serK key)], log := [],
          result := Except.ok false } ∧
    CLevelDBWrapper.Read e2 serK key deserV v0
      = { calls := [EngineCall.get (serK key)], log := [logReadFailure msg],
          result := Except.error { msg := msg } } ∧
    CLevelDBWrapper.Exists e2 serK key
      = { calls := [EngineCall.get (serK key)], log := [logReadFailure msg],
          result := Except.error { msg := msg } } := by
  refine ⟨?_, ?_, ?_, ?_⟩ <;>
    simp [CLevelDBWrapper.Read, CLevelDBWrapper.Exists, h1, h2]

/-- Witness for C5: an empty healthy engine reports the key absent; an
engine with an injected fault reports the failure. -/
theorem claim_C5_witness :
    ({ data := [], failMsg := none } : Engine).get (serNat 7)
      = GetResult.notFound ∧
    ({ data := [], failMsg := some "io error" } : Engine).get (serNat 7)
      = GetResult.failure "io error" ∧
    (CLevelDBWrapper.Read { data := [], failMsg := none } serNat 7 deserNat 0
      = { calls := [EngineCall.get (serNat 7)], log := [],
          result := Except.ok (false, 0) } ∧
    CLevelDBWrapper.Exists ({ data := [], failMsg := none } : Engine) serNat 7
      = { calls := [EngineCall.get (serNat 7)], log := [],
          result := Except.ok false } ∧
    CLevelDBWrapper.Read { data := [], failMsg := some "io error" } serNat 7
        deserNat 0
      = { calls := [EngineCall.get (serNat 7)],
          log := [logReadFailure "io error"],
          result := Except.error { msg := "io error" } } ∧
    CLevelDBWrapper.Exists ({ data := [], failMsg := some "io error" } : Engine)
        serNat 7
      = { calls := [EngineCall.get (serNat 7)],
          log := [logReadFailure "io error"],
          result := Except.error { msg := "io error" } }) :=
  ⟨rfl, rfl,
    claim_C5_notfound_vs_error { data := [], failMsg := none }
      { data := [], failMsg := some "io error" } serNat deserNat 7 0
      "io error" rfl rfl⟩

/-- C6: if the engine returns value bytes but deserializing them fails, Read
returns false (the absent signal) with no error, no log line, and the
out-parameter unchanged. -/
theorem claim_C6_undecodable_reads_false {K V : Type} (e : Engine)
    (serK : K → Bytes) (deserV : Bytes → Option V) (key : K) (v0 : V)
    (bs : Bytes)
    (hf : e.get (serK key) = GetResult.found bs)
    (hd : deserV bs = none) :
    CLevelDBWrapper.Read e serK key deserV v0
      = { calls := [EngineCall.get (serK key)], log := [],
          result := Except.ok (false, v0) } := by
  simp [CLevelDBWrapper.Read, hf, hd]

/-- Witness for C6: the stored two-byte value [1, 2] is undecodable by the
single-byte Nat codec. -/
theorem claim_C6_witness :
    ({ data := [([7], [1, 2])], failMsg := none } : Engine).get (serNat 7)
      = GetResult.found [1, 2] ∧
    deserNat [1, 2] = none ∧
    CLevelDBWrapper.Read { data := [([7], [1, 2])], failMsg := none }
        serNat 7 deserNat 0
      = { calls := [EngineCall.get (serNat 7)], log := [],
          result := Except.ok (false, 0) } :=
  ⟨rfl, rfl,
    claim_C6_undecodable_reads_false { data := [([7], [1, 2])], failMsg := none }
      serNat deserNat 7 0 [1, 2] rfl rfl⟩

/-- C7: Write(k, v, sync) equals submitting a one-operation batch holding
Put(serK k, serV v) via WriteBatch with the same sync flag; Erase(k, sync)
equals submitting a one-operation batch holding Delete(serK k); Sync()
equals submitting an empty batch with sync = true. -/
theorem claim_C7_single_op_equivalence {K V : Type} (e : Engine) (ob : Bytes)
    (serK : K → Bytes) (serV : V → Bytes) (key : K) (value : V)
    (fSync : Bool) :
    CLevelDBWrapper.Write e ob serK serV key value fSync
      = CLevelDBWrapper.WriteBatch e
          { batch := [BatchOp.put (serK key) (serV value)], obfuscate_key := ob }
          fSync ∧
    CLevelDBWrapper.Erase e ob serK key fSync
      = CLevelDBWrapper.WriteBatch e
          { batch := [BatchOp.del (serK key)], obfuscate_key := ob } fSync ∧
    CLevelDBWrapper.Sync e ob
      = CLevelDBWrapper.WriteBatch e
          { batch := [], obfuscate_key := ob } true :=
  ⟨rfl, rfl, rfl⟩

/-- C8: when the engine holds value bytes for the key that fail to
deserialize as the requested type, Exists returns true while Read returns
false: existence is decided by the engine lookup alone. -/
theorem claim_C8_exists_true_read_false {K V : Type} (e : Engine)
    (serK : K → Bytes) (deserV : Bytes → Option V) (key : K) (v0 : V)
    (bs : Bytes)
    (hf : e.get (serK key) = GetResult.found bs)
    (hd : deserV bs = none) :
    (CLevelDBWrapper.Exists e serK key).result = Except.ok true ∧
    (CLevelDBWrapper.Read e serK key deserV v0).result
      = Except.ok (false, v0) := by
  constructor
  · simp [CLevelDBWrapper.Exists, hf]
  · simp [CLevelDBWrapper.Read, hf, hd]

/-- Witness for C8: the key [7] is present with the undecodable value
[1, 2]; Exists answers true and Read answers false. -/
theorem claim_C8_witness :
    ({ data := [([7], [1, 2])], failMsg := none } : Engine).get (serNat 7)
      = GetResult.found [1, 2] ∧
    deserNat [1, 2] = none ∧
    ((CLevelDBWrapper.Exists ({ data := [([7], [1, 2])], failMsg := none } : Engine)
        serNat 7).result = Except.ok true ∧
    (CLevelDBWrapper.Read { data := [([7], [1, 2])], failMsg := none }
        serNat 7 deserNat 0).result = Except.ok (false, 0)) :=
  ⟨rfl, rfl,
    claim_C8_exists_true_read_false { data := [([7], [1, 2])], failMsg := none }
      serNat deserNat 7 0 [1, 2] rfl rfl⟩

/-- C9: whenever the engine reports not-found for the serialized key, Read
returns false and hands back the caller out-parameter completely
unmodified. -/
theorem claim_C9_notfound_leaves_out_param {K V : Type} (e : Engine)
    (serK : K → Bytes) (deserV : Bytes → Option V) (key : K) (v0 : V)
    (h : e.get (serK key) = GetResult.notFound) :
    CLevelDBWrapper.Read e serK key deserV v0
      = { calls := [EngineCall.get (serK key)], log := [],
          result := Except.ok (false, v0) } := by
  simp [CLevelDBWrapper.Read, h]

/-- Witness for C9: reading the absent key 9 with out-parameter 55 returns
false and 55 unchanged. -/
theorem claim_C9_witness :
    ({ data := [([7], [1])], failMsg := none } : Engine).get (serNat 9)
      = GetResult.notFound ∧
    CLevelDBWrapper.Read { data := [([7], [1])], failMsg := none }
        serNat 9 deserNat 55
      = { calls := [EngineCall.get (serNat 9)], log := [],
          result := Except.ok (false, 55) } :=
  ⟨rfl,
    claim_C9_notfound_leaves_out_param { data := [([7], [1])], failMsg := none }
      serNat deserNat 9 55 rfl⟩

/-- C10: Flush returns true while issuing no engine call, emitting no log
line and leaving the engine untouched, for every engine state; Sync, in
contrast, submits an empty batch through WriteBatch with sync = true. -/
theorem claim_C10_flush_is_noop (e : Engine) (ob : Bytes) :
    CLevelDBWrapper.Flush e
      = { calls := [], log := [], result := Except.ok (true, e) } ∧
    CLevelDBWrapper.Sync e ob
      = CLevelDBWrapper.WriteBatch e { batch := [], obfuscate_key := ob } true ∧
    (CLevelDBWrapper.Sync e ob).calls
      = [EngineCall.atomicWrite [] true] := by
  refine ⟨rfl, rfl, ?_⟩
  cases hf : e.failMsg <;> simp [CLevelDBWrapper.Sync, CLevelDBWrapper.WriteBatch, hf]

/-- C2 evaluated on the code at a failing input: with the non-zero
obfuscation key [1, 2, 3, 4, 5, 6, 7, 8], key 107 and value 42, the batch
put and the Store-handle Write hand the engine the plain serialized value
bytes [42], not the XOR-masked bytes [43] = xorWithKey okey [42] the claim
requires; the plaintext serialized value IS stored directly. -/
theorem claim_C2_code_eval :
    (CLevelDBBatch.Write
        { batch := [], obfuscate_key := [1, 2, 3, 4, 5, 6, 7, 8] }
        serNat serNat 107 42).batch = [BatchOp.put [107] [42]] ∧
    xorWithKey [1, 2, 3, 4, 5, 6, 7, 8] (serNat 42) = [43] ∧
    (CLevelDBWrapper.Write { data := [], failMsg := none }
        [1, 2, 3, 4, 5, 6, 7, 8] serNat serNat 107 42 false).calls
      = [EngineCall.atomicWrite [BatchOp.put [107] [42]] false] ∧
    serNat 42 ≠ xorWithKey [1, 2, 3, 4, 5, 6, 7, 8] (serNat 42) := by
  refine ⟨rfl, by decide, rfl, by decide⟩

/-- C3 evaluated on the code at a failing input: after writing value 42
under the non-sentinel key 107 with the non-zero obfuscation key
[1, 2, 3, 4, 5, 6, 7, 8], the raw value bytes stored in the engine are
exactly the plaintext serialized value [42] (the claim requires them to
differ from it), while Read does return the correct plaintext value. -/
theorem claim_C3_code_eval :
    (CLevelDBWrapper.Write { data := [], failMsg := none }
        [1, 2, 3, 4, 5, 6, 7, 8] serNat serNat 107 42 false).result
      = Except.ok (true, ({ data := [([107], [42])], failMsg := none } : Engine)) ∧
    ({ data := [([107], [42])], failMsg := none } : Engine).get (serNat 107)
      = GetResult.found (serNat 42) ∧
    (CLevelDBWrapper.Read { data := [([107], [42])], failMsg := none }
        serNat 107 deserNat 0).result = Except.ok (true, 42) := by
  refine ⟨rfl, rfl, rfl⟩
